import Mathlib

/-!
Verification of the pull-request check workflow (`src/check.ts`) of the
extension-registration bot.

The entry point `check` classifies the pull request by its labels, recovers
the linked issue number from the head branch ref, fetches the issue once,
extracts a typed registration record from the issue body, and dispatches to
exactly one of three validators; the Plugin validator posts a comment back
to the issue.

Only `check.ts` is in the repository snapshot; the imported utilities
(`checkLabel`, `extractIssueNumberFromRef`, `extractInfo`, `publishComment`)
are modelled from the specification, as marked on each definition.

The effectful entry point is embedded as a pure function from the ambient
pull-request context and the (single) fetched issue's data to a `Run` trace
recording, in program order, the API calls initiated, which of those calls
the promise returned by `check` awaits before resolving, the failure signal,
the informational messages, the records built by `extractInfo`, and the
validators invoked.
-/

/-- The three extension kinds, derived from the pull request's labels. -/
inductive ExtensionType
  | Bot
  | Adapter
  | Plugin
  deriving DecidableEq, Repr

/-- The string discriminant stamped into a registration record's `type`
field; in the source these are the string-literal types of
`BotInfo`/`AdapterInfo`/`PluginInfo`. -/
def ExtensionType.toTag : ExtensionType → String
  | .Bot => "Bot"
  | .Adapter => "Adapter"
  | .Plugin => "Plugin"

/-- The registration record built by `extractInfo` (the common fields of
`BotInfo`/`AdapterInfo`/`PluginInfo`: the `type` string discriminant, the
extension `name`, and the issue author's login). -/
structure Info where
  type : String
  name : String
  author : String
  deriving DecidableEq, Repr

/-- An outbound call to the external issue-tracking API. -/
inductive ApiCall
  | fetchIssue (issue_number : Nat)
  | createComment (issue_number : Nat) (body : String)
  deriving DecidableEq, Repr

/-- Whether an API call is an issue fetch. -/
def ApiCall.isFetch : ApiCall → Bool
  | .fetchIssue _ => true
  | .createComment _ _ => false

/-- Whether an API call is a comment creation (an outbound write). -/
def ApiCall.isWrite : ApiCall → Bool
  | .fetchIssue _ => false
  | .createComment _ _ => true

/-- Names of the three validators, used to record which validator the
dispatch switch invoked. -/
inductive Validator
  | bot
  | adapter
  | plugin
  deriving DecidableEq, Repr

/-- The data of the fetched issue, as read by `check`:
`issue.data.body` and `issue.data.user?.login`, either of which may be
absent (`none`). -/
structure IssueData where
  body : Option String
  login : Option String
  deriving DecidableEq, Repr

/-- The ambient pull-request context read by `check`:
`github.context.payload.pull_request?.labels` (which may be absent) and
the head branch ref. -/
structure Ctx where
  labels : Option (List String)
  ref : String
  deriving DecidableEq, Repr

/-- Modelled from the spec: the Label Classifier's fixed mapping from a
label name to an ExtensionType (the recognized labels are the three type
names, per the end-to-end scenarios). -/
def labelToType (label : String) : Option ExtensionType :=
  if label = "Bot" then some .Bot
  else if label = "Adapter" then some .Adapter
  else if label = "Plugin" then some .Plugin
  else none

/-- Modelled from the spec: `checkLabel(labels)` scans the labels against
the fixed mapping and returns the first match, or `none` when no label
matches or the input is absent. -/
def checkLabel : Option (List String) → Option ExtensionType
  | none => none
  | some labels => labels.findSome? labelToType

/-- Numeric value of a list of decimal digit characters. -/
def digitsVal (ds : List Char) : Nat :=
  ds.foldl (fun a c => 10 * a + (c.toNat - 48)) 0

/-- Strips the fixed branch-name marker `issue-` from the front of a
character list, returning the remainder, or `none` when the marker is
missing. -/
def stripMarker : List Char → Option (List Char)
  | 'i' :: 's' :: 's' :: 'u' :: 'e' :: '-' :: rest => some rest
  | _ => none

/-- Modelled from the spec: `extractIssueNumberFromRef(ref)` recovers the
issue number embedded in the head branch name. The branch convention is a
fixed marker followed by digits (scenario A: branch `issue-42` links issue
42); a ref that misses the marker, whose remainder is empty or not all
digits, or whose number is non-positive yields `none`. -/
def extractIssueNumberFromRef (ref : String) : Option Nat :=
  match stripMarker ref.data with
  | some rest =>
    if rest ≠ [] ∧ rest.all Char.isDigit then
      if digitsVal rest = 0 then none else some (digitsVal rest)
    else none
  | none => none

/-- Splits a character list into lines at newline characters. -/
def splitLines : List Char → List (List Char)
  | [] => [[]]
  | c :: rest =>
    if c = '\n' then [] :: splitLines rest
    else
      match splitLines rest with
      | [] => [[c]]
      | l :: ls => (c :: l) :: ls

/-- Removes leading and trailing whitespace from a character list. -/
def trimChars (cs : List Char) : List Char :=
  ((cs.dropWhile Char.isWhitespace).reverse.dropWhile Char.isWhitespace).reverse

/-- Recognizes a `name:` marker line, yielding the trimmed remainder. -/
def nameOfLine : List Char → Option (List Char)
  | 'n' :: 'a' :: 'm' :: 'e' :: ':' :: rest => some (trimChars rest)
  | _ => none

/-- Modelled from the spec: the name-marker scan of the Issue Metadata
Extractor. The exact issue-body template is unspecified; a minimal
recognizable marker is used: the first line starting with `name:` yields
the trimmed remainder of that line, and a body with no such line yields
the empty string (extraction is best-effort and total). -/
def extractName (body : String) : String :=
  match (splitLines body.data).findSome? nameOfLine with
  | some cs => String.mk cs
  | none => ""

/-- Modelled from the spec: `extractInfo(type, body, author)` always stamps
the record's `type` with the supplied ExtensionType and `author` with the
supplied login, and recovers `name` from the body (empty when no marker is
found). -/
def extractInfo (t : ExtensionType) (body : String) (author : String) : Info :=
  { type := t.toTag, name := extractName body, author := author }

/-- The trace of one run of `check`: the API calls initiated in program
order; the calls whose completion the promise returned by `check` awaits
before resolving (a rejection of such a call surfaces as a rejection of
`check` itself; a rejection of an initiated but unawaited call does not);
the `core.setFailed` message, if any; the `core.info` messages; the records
built by `extractInfo`; and the validators invoked by the dispatch switch. -/
structure Run where
  calls : List ApiCall
  awaitedByCheck : List ApiCall
  failedMsg : Option String
  infoMsgs : List String
  extractions : List Info
  invoked : List Validator
  deriving DecidableEq, Repr

/-- The effects of one validator call: the API calls it initiates, the
calls its own promise awaits, and its `core.info` messages. -/
structure VOut where
  calls : List ApiCall
  awaited : List ApiCall
  infoMsgs : List String
  deriving DecidableEq, Repr

/-- `checkPlugin(octokit, info, issue_number)`: logs the plugin name and
awaits `publishComment(octokit, issue_number, ...)`, posting one comment
parameterized by the record's name. -/
def checkPlugin (info : Info) (issue_number : Nat) : VOut :=
  { calls := [ApiCall.createComment issue_number
      ("插件 " ++ info.name ++ " 没有问题")],
    awaited := [ApiCall.createComment issue_number
      ("插件 " ++ info.name ++ " 没有问题")],
    infoMsgs := ["插件 " ++ info.name] }

/-- `checkBot(octokit, info)`: logs the bot name; no API call. -/
def checkBot (info : Info) : VOut :=
  { calls := [], awaited := [], infoMsgs := ["机器人 " ++ info.name] }

/-- `checkAdapter(octokit, info)`: logs the adapter name; no API call. -/
def checkAdapter (info : Info) : VOut :=
  { calls := [], awaited := [], infoMsgs := ["适配器 " ++ info.name] }

/-- The dispatch switch of `check`: `switch (info.type)` with the three
cases `Bot`, `Adapter`, `Plugin` and no default case (a record whose
`type` matches no case falls through the switch and nothing is invoked,
modelled by the final `none`). Returns which validator was invoked
together with its effects. -/
def dispatch (info : Info) (issue_number : Nat) : Option (Validator × VOut) :=
  if info.type = "Bot" then some (Validator.bot, checkBot info)
  else if info.type = "Adapter" then some (Validator.adapter, checkAdapter info)
  else if info.type = "Plugin" then
    some (Validator.plugin, checkPlugin info issue_number)
  else none

/-- The tail of `check` after the issue fetch: the fetch of `issue_number`
has been awaited, the record `info` has been built, and the dispatch
switch runs. The switch arms invoke the validators WITHOUT `await`
(`checkPlugin(octokit, info, issue_number)` followed by `break`), so the
validator's calls are initiated but not awaited by `check`'s own promise:
only the issue fetch is in `awaitedByCheck`. -/
def runDispatch (info : Info) (issue_number : Nat) : Run :=
  match dispatch info issue_number with
  | some (v, out) =>
    { calls := ApiCall.fetchIssue issue_number :: out.calls,
      awaitedByCheck := [ApiCall.fetchIssue issue_number],
      failedMsg := none,
      infoMsgs := out.infoMsgs,
      extractions := [info],
      invoked := [v] }
  | none =>
    { calls := [ApiCall.fetchIssue issue_number],
      awaitedByCheck := [ApiCall.fetchIssue issue_number],
      failedMsg := none,
      infoMsgs := [],
      extractions := [info],
      invoked := [] }

/-- The run produced by the `core.setFailed` branch of `check` when the
issue number cannot be resolved from the branch ref: the failure message
is reported and nothing else happens. -/
def cannotResolveRun : Run :=
  { calls := [], awaitedByCheck := [], failedMsg := some "无法获取议题",
    infoMsgs := [], extractions := [], invoked := [] }

/-- The run produced by the `else` branch of `check` when no label
matches: only the informational skip message is logged. -/
def skippedRun : Run :=
  { calls := [], awaitedByCheck := [], failedMsg := none,
    infoMsgs := ["拉取请求与插件无关，已跳过"], extractions := [],
    invoked := [] }

/-- The body of `check`'s labelled branch, as a function of the parsed
issue number. The guard is `if (!issue_number)`: the failure path is taken
both when the parser returned null and when it returned the falsy number
0; otherwise the issue is fetched and the record built and dispatched. -/
def checkFromIssueNumber (issueType : ExtensionType)
    (issueNum : Option Nat) (issue : IssueData) : Run :=
  match issueNum with
  | none => cannotResolveRun
  | some issue_number =>
    if issue_number = 0 then cannotResolveRun
    else
      runDispatch
        (extractInfo issueType (issue.body.getD "") (issue.login.getD ""))
        issue_number

/-- The entry point `check(octokit)`: classifies the labels; when no
ExtensionType is found logs the skip message and does nothing else;
otherwise parses the head branch ref and continues with
`checkFromIssueNumber`. `issue` is the data the single `octokit.issues.get`
call would return (the fetch appears in the trace only when it is reached). -/
def check (ctx : Ctx) (issue : IssueData) : Run :=
  match checkLabel ctx.labels with
  | some issueType =>
    checkFromIssueNumber issueType (extractIssueNumberFromRef ctx.ref) issue
  | none => skippedRun

/-- The validator associated to each ExtensionType (used only to state
which validator the dispatch selects). -/
def validatorOf : ExtensionType → Validator
  | .Bot => Validator.bot
  | .Adapter => Validator.adapter
  | .Plugin => Validator.plugin

/-! ## Helper lemmas -/

/-- The modelled parser never returns `some 0`: a successfully parsed
issue number is positive. -/
lemma extractIssueNumberFromRef_ne_zero {ref : String} {n : Nat}
    (h : extractIssueNumberFromRef ref = some n) : n ≠ 0 := by
  unfold extractIssueNumberFromRef at h
  split at h
  · split at h
    · split at h
      · cases h
      · rename_i hz
        cases h
        exact hz
    · cases h
  · cases h

/-- When the label classifier and the branch parser both succeed, `check`
reduces to the dispatch on the record extracted from the fetched issue. -/
lemma check_eq_runDispatch {ctx : Ctx} {issue : IssueData}
    {t : ExtensionType} {n : Nat}
    (hl : checkLabel ctx.labels = some t)
    (hr : extractIssueNumberFromRef ctx.ref = some n) :
    check ctx issue =
      runDispatch (extractInfo t (issue.body.getD "") (issue.login.getD ""))
        n := by
  have hn : n ≠ 0 := extractIssueNumberFromRef_ne_zero hr
  simp [check, hl, checkFromIssueNumber, hr, hn]

/-- Explicit value of the dispatch on a Bot record. -/
lemma runDispatch_bot (b a : String) (n : Nat) :
    runDispatch (extractInfo ExtensionType.Bot b a) n =
      { calls := [ApiCall.fetchIssue n],
        awaitedByCheck := [ApiCall.fetchIssue n],
        failedMsg := none,
        infoMsgs := ["机器人 " ++ extractName b],
        extractions := [⟨"Bot", extractName b, a⟩],
        invoked := [Validator.bot] } := rfl

/-- Explicit value of the dispatch on an Adapter record. -/
lemma runDispatch_adapter (b a : String) (n : Nat) :
    runDispatch (extractInfo ExtensionType.Adapter b a) n =
      { calls := [ApiCall.fetchIssue n],
        awaitedByCheck := [ApiCall.fetchIssue n],
        failedMsg := none,
        infoMsgs := ["适配器 " ++ extractName b],
        extractions := [⟨"Adapter", extractName b, a⟩],
        invoked := [Validator.adapter] } := rfl

/-- Explicit value of the dispatch on a Plugin record. -/
lemma runDispatch_plugin (b a : String) (n : Nat) :
    runDispatch (extractInfo ExtensionType.Plugin b a) n =
      { calls := [ApiCall.fetchIssue n,
          ApiCall.createComment n ("插件 " ++ extractName b ++ " 没有问题")],
        awaitedByCheck := [ApiCall.fetchIssue n],
        failedMsg := none,
        infoMsgs := ["插件 " ++ extractName b],
        extractions := [⟨"Plugin", extractName b, a⟩],
        invoked := [Validator.plugin] } := rfl

/-- The extractions trace of a dispatch always holds exactly the built
record, whichever switch arm (or none) runs. -/
lemma runDispatch_extractions (info : Info) (n : Nat) :
    (runDispatch info n).extractions = [info] := by
  unfold runDispatch
  split <;> rfl

/-- A fetch in a dispatch trace always carries the dispatched issue number. -/
lemma runDispatch_fetch_mem (info : Info) (n m : Nat)
    (h : ApiCall.fetchIssue m ∈ (runDispatch info n).calls) : m = n := by
  by_cases h1 : info.type = "Bot"
  · simpa [runDispatch, dispatch, h1, checkBot] using h
  · by_cases h2 : info.type = "Adapter"
    · simpa [runDispatch, dispatch, h1, h2, checkAdapter] using h
    · by_cases h3 : info.type = "Plugin"
      · simpa [runDispatch, dispatch, h1, h2, h3, checkPlugin] using h
      · simpa [runDispatch, dispatch, h1, h2, h3] using h

/-- Scenario inputs: a Plugin-labelled pull request from branch `issue-42`
whose linked issue names `echo-plugin` and was opened by `alice`. -/
def ctxA : Ctx := ⟨some ["Plugin"], "issue-42"⟩

/-- The issue data fetched in the scenario above. -/
def issueA : IssueData := ⟨some "name: echo-plugin", some "alice"⟩

/-! ## Claims -/

/-- C1: when the Label Classifier returns an ExtensionType and the Branch
Reference Parser returns an issue number, `check` performs exactly one
fetch of the linked issue, performs it before anything else, and invokes
exactly one of the three validators, the one selected by the built
record's `type` discriminant. -/
theorem check_single_fetch_single_dispatch
    (ctx : Ctx) (issue : IssueData) (t : ExtensionType) (n : Nat)
    (hl : checkLabel ctx.labels = some t)
    (hr : extractIssueNumberFromRef ctx.ref = some n) :
    (check ctx issue).calls.filter (fun c => c.isFetch) =
      [ApiCall.fetchIssue n] ∧
    (check ctx issue).calls.head? = some (ApiCall.fetchIssue n) ∧
    (check ctx issue).invoked = [validatorOf t] ∧
    (check ctx issue).extractions =
      [extractInfo t (issue.body.getD "") (issue.login.getD "")] ∧
    (extractInfo t (issue.body.getD "") (issue.login.getD "")).type =
      t.toTag := by
  rw [check_eq_runDispatch hl hr]
  cases t
  · rw [runDispatch_bot]
    exact ⟨rfl, rfl, rfl, rfl, rfl⟩
  · rw [runDispatch_adapter]
    exact ⟨rfl, rfl, rfl, rfl, rfl⟩
  · rw [runDispatch_plugin]
    exact ⟨rfl, rfl, rfl, rfl, rfl⟩

/-- C1 witness: the scenario-A run fetches issue 42 and invokes the Plugin
validator only. -/
theorem check_single_fetch_single_dispatch_witness :
    (check ctxA issueA).calls.filter (fun c => c.isFetch) =
      [ApiCall.fetchIssue 42] ∧
    (check ctxA issueA).calls.head? = some (ApiCall.fetchIssue 42) ∧
    (check ctxA issueA).invoked = [validatorOf ExtensionType.Plugin] ∧
    (check ctxA issueA).extractions =
      [extractInfo ExtensionType.Plugin (issueA.body.getD "")
        (issueA.login.getD "")] ∧
    (extractInfo ExtensionType.Plugin (issueA.body.getD "")
        (issueA.login.getD "")).type = ExtensionType.Plugin.toTag :=
  check_single_fetch_single_dispatch ctxA issueA ExtensionType.Plugin 42
    rfl rfl

/-- C2: when a label matches but the branch ref yields no issue number,
`check` reports the cannot-resolve failure message and performs no API
call, no extraction and no validator invocation. -/
theorem check_fails_when_ref_unparsable
    (ctx : Ctx) (issue : IssueData) (t : ExtensionType)
    (hl : checkLabel ctx.labels = some t)
    (hr : extractIssueNumberFromRef ctx.ref = none) :
    check ctx issue = cannotResolveRun ∧
    cannotResolveRun.failedMsg = some "无法获取议题" ∧
    cannotResolveRun.calls = [] ∧
    cannotResolveRun.extractions = [] ∧
    cannotResolveRun.invoked = [] := by
  refine ⟨?_, rfl, rfl, rfl, rfl⟩
  simp [check, hl, checkFromIssueNumber, hr]

/-- C2 witness: scenario D, an Adapter-labelled pull request from an
unparsable branch name fails without fetching. -/
theorem check_fails_when_ref_unparsable_witness :
    check ⟨some ["Adapter"], "not-an-issue-branch"⟩ ⟨none, none⟩ =
      cannotResolveRun ∧
    cannotResolveRun.failedMsg = some "无法获取议题" ∧
    cannotResolveRun.calls = [] ∧
    cannotResolveRun.extractions = [] ∧
    cannotResolveRun.invoked = [] :=
  check_fails_when_ref_unparsable ⟨some ["Adapter"], "not-an-issue-branch"⟩
    ⟨none, none⟩ ExtensionType.Adapter rfl rfl

/-- C3: when no label matches, `check` ends with only the informational
skip message: no API call, no failure signal, no extraction, no validator. -/
theorem check_skips_when_no_label
    (ctx : Ctx) (issue : IssueData)
    (hl : checkLabel ctx.labels = none) :
    check ctx issue = skippedRun ∧
    skippedRun.calls = [] ∧
    skippedRun.failedMsg = none ∧
    skippedRun.infoMsgs = ["拉取请求与插件无关，已跳过"] ∧
    skippedRun.extractions = [] ∧
    skippedRun.invoked = [] := by
  refine ⟨?_, rfl, rfl, rfl, rfl, rfl⟩
  simp [check, hl]

/-- C3 witness: scenario C, an unlabelled pull request is skipped with no
network call. -/
theorem check_skips_when_no_label_witness :
    check ⟨some [], "issue-7"⟩ ⟨none, none⟩ = skippedRun ∧
    skippedRun.calls = [] ∧
    skippedRun.failedMsg = none ∧
    skippedRun.infoMsgs = ["拉取请求与插件无关，已跳过"] ∧
    skippedRun.extractions = [] ∧
    skippedRun.invoked = [] :=
  check_skips_when_no_label ⟨some [], "issue-7"⟩ ⟨none, none⟩ rfl

/-- C4: on the Plugin path the run's only outbound write is one comment,
whose text contains the record's name, posted to the same issue number
that was parsed from the branch ref and fetched. -/
theorem checkPlugin_posts_named_comment
    (ctx : Ctx) (issue : IssueData) (n : Nat)
    (hl : checkLabel ctx.labels = some ExtensionType.Plugin)
    (hr : extractIssueNumberFromRef ctx.ref = some n) :
    (check ctx issue).calls.filter (fun c => c.isWrite) =
      [ApiCall.createComment n
        ("插件 " ++ extractName (issue.body.getD "") ++ " 没有问题")] ∧
    ApiCall.fetchIssue n ∈ (check ctx issue).calls ∧
    (∃ pre post,
      "插件 " ++ extractName (issue.body.getD "") ++ " 没有问题" =
        pre ++ extractName (issue.body.getD "") ++ post) := by
  rw [check_eq_runDispatch hl hr, runDispatch_plugin]
  exact ⟨rfl, List.mem_cons_self _ _, "插件 ", " 没有问题", rfl⟩

/-- C4 witness: in scenario A, the Plugin validator posts to issue 42 one
comment containing `echo-plugin`. -/
theorem checkPlugin_posts_named_comment_witness :
    (check ctxA issueA).calls.filter (fun c => c.isWrite) =
      [ApiCall.createComment 42
        ("插件 " ++ extractName (issueA.body.getD "") ++ " 没有问题")] ∧
    ApiCall.fetchIssue 42 ∈ (check ctxA issueA).calls ∧
    (∃ pre post,
      "插件 " ++ extractName (issueA.body.getD "") ++ " 没有问题" =
        pre ++ extractName (issueA.body.getD "") ++ post) :=
  checkPlugin_posts_named_comment ctxA issueA 42 rfl rfl

/-- C5 counterexample: in scenario A the comment post is initiated but is
NOT among the calls awaited by `check`'s promise — the switch arm invokes
`checkPlugin(octokit, info, issue_number)` without `await`, so `check`
resolves without waiting for the comment post and a comment-post failure
does not surface as a rejection of `check`. -/
theorem comment_post_not_awaited_by_check_cex :
    ApiCall.createComment 42 "插件 echo-plugin 没有问题" ∈
      (check ctxA issueA).calls ∧
    ApiCall.createComment 42 "插件 echo-plugin 没有问题" ∉
      (check ctxA issueA).awaitedByCheck := by
  decide

/-- C5 amended: the comment post is awaited by `checkPlugin`'s own promise
and the issue fetch is awaited by `check` (so a fetch failure rejects
`check`), but the dispatcher invokes `checkPlugin` without awaiting it, so
the comment post is initiated yet not awaited by `check`'s promise and a
comment-post failure does not surface as a rejection of `check`. -/
theorem comment_await_scope
    (ctx : Ctx) (issue : IssueData) (n : Nat)
    (hl : checkLabel ctx.labels = some ExtensionType.Plugin)
    (hr : extractIssueNumberFromRef ctx.ref = some n) :
    ApiCall.createComment n
        ("插件 " ++ extractName (issue.body.getD "") ++ " 没有问题") ∈
      (checkPlugin
        (extractInfo ExtensionType.Plugin (issue.body.getD "")
          (issue.login.getD "")) n).awaited ∧
    (check ctx issue).awaitedByCheck = [ApiCall.fetchIssue n] ∧
    ApiCall.createComment n
        ("插件 " ++ extractName (issue.body.getD "") ++ " 没有问题") ∈
      (check ctx issue).calls ∧
    ApiCall.createComment n
        ("插件 " ++ extractName (issue.body.getD "") ++ " 没有问题") ∉
      (check ctx issue).awaitedByCheck := by
  rw [check_eq_runDispatch hl hr, runDispatch_plugin]
  refine ⟨List.mem_cons_self _ _, rfl,
    List.mem_cons_of_mem _ (List.mem_cons_self _ _), ?_⟩
  intro hmem
  simp at hmem

/-- C5 amended witness: the await scopes in scenario A. -/
theorem comment_await_scope_witness :
    ApiCall.createComment 42
        ("插件 " ++ extractName (issueA.body.getD "") ++ " 没有问题") ∈
      (checkPlugin
        (extractInfo ExtensionType.Plugin (issueA.body.getD "")
          (issueA.login.getD "")) 42).awaited ∧
    (check ctxA issueA).awaitedByCheck = [ApiCall.fetchIssue 42] ∧
    ApiCall.createComment 42
        ("插件 " ++ extractName (issueA.body.getD "") ++ " 没有问题") ∈
      (check ctxA issueA).calls ∧
    ApiCall.createComment 42
        ("插件 " ++ extractName (issueA.body.getD "") ++ " 没有问题") ∉
      (check ctxA issueA).awaitedByCheck :=
  comment_await_scope ctxA issueA 42 rfl rfl

/-- C6: every run initiates at most one outbound write; any write implies
the Plugin validator was the one invoked; and a run that invoked a
non-Plugin validator made no API call beyond the single issue fetch. -/
theorem at_most_one_write_only_plugin (ctx : Ctx) (issue : IssueData) :
    (check ctx issue).calls.countP (fun c => c.isWrite) ≤ 1 ∧
    (∀ c, c ∈ (check ctx issue).calls → c.isWrite = true →
      (check ctx issue).invoked = [Validator.plugin]) ∧
    (∀ v, v ∈ (check ctx issue).invoked → v ≠ Validator.plugin →
      ∃ m, (check ctx issue).calls = [ApiCall.fetchIssue m]) := by
  cases hcl : checkLabel ctx.labels with
  | none =>
    have h : check ctx issue = skippedRun := by simp [check, hcl]
    rw [h]
    refine ⟨by decide, ?_, ?_⟩
    · intro c hc _
      simp [skippedRun] at hc
    · intro v hv _
      simp [skippedRun] at hv
  | some t =>
    cases hr : extractIssueNumberFromRef ctx.ref with
    | none =>
      have h : check ctx issue = cannotResolveRun := by
        simp [check, hcl, checkFromIssueNumber, hr]
      rw [h]
      refine ⟨by decide, ?_, ?_⟩
      · intro c hc _
        simp [cannotResolveRun] at hc
      · intro v hv _
        simp [cannotResolveRun] at hv
    | some n =>
      rw [check_eq_runDispatch hcl hr]
      cases t
      · rw [runDispatch_bot]
        refine ⟨Nat.zero_le 1, ?_, ?_⟩
        · intro c hc hw
          simp at hc
          subst hc
          simp [ApiCall.isWrite] at hw
        · intro v _ _
          exact ⟨n, rfl⟩
      · rw [runDispatch_adapter]
        refine ⟨Nat.zero_le 1, ?_, ?_⟩
        · intro c hc hw
          simp at hc
          subst hc
          simp [ApiCall.isWrite] at hw
        · intro v _ _
          exact ⟨n, rfl⟩
      · rw [runDispatch_plugin]
        refine ⟨Nat.le_refl 1, ?_, ?_⟩
        · intro c _ _
          rfl
        · intro v hv hne
          simp at hv
          exact absurd hv hne

/-- C6 witness: the scenario-B Bot run made no call beyond fetching
issue 7. -/
theorem at_most_one_write_only_plugin_witness :
    ∃ m, (check ⟨some ["Bot"], "issue-7"⟩
      ⟨some "name: weatherbot", some "bob"⟩).calls = [ApiCall.fetchIssue m] :=
  (at_most_one_write_only_plugin ⟨some ["Bot"], "issue-7"⟩
      ⟨some "name: weatherbot", some "bob"⟩).2.2
    Validator.bot (by decide) (by decide)

/-- C7: the record built during a run is the one extracted from the
fetched issue: its `type` is the classifier's ExtensionType tag, its
`author` the issue author's login, with the empty string substituted for
an absent body and for an absent login; extraction is a total function. -/
theorem extracted_record_type_author
    (ctx : Ctx) (issue : IssueData) (t : ExtensionType) (n : Nat)
    (hl : checkLabel ctx.labels = some t)
    (hr : extractIssueNumberFromRef ctx.ref = some n) :
    (check ctx issue).extractions =
      [extractInfo t (issue.body.getD "") (issue.login.getD "")] ∧
    (∀ b a, (extractInfo t b a).type = t.toTag ∧
      (extractInfo t b a).author = a) ∧
    (issue.body = none →
      (check ctx issue).extractions =
        [extractInfo t "" (issue.login.getD "")]) ∧
    (issue.login = none →
      (extractInfo t (issue.body.getD "") (issue.login.getD "")).author =
        "") := by
  refine ⟨?_, fun b a => ⟨rfl, rfl⟩, ?_, ?_⟩
  · rw [check_eq_runDispatch hl hr, runDispatch_extractions]
  · intro hb
    rw [check_eq_runDispatch hl hr, runDispatch_extractions, hb]
    rfl
  · intro hlo
    rw [hlo]
    rfl

/-- C7 witness: in scenario A the built record is the Plugin record
extracted from the fetched issue. -/
theorem extracted_record_type_author_witness :
    (check ctxA issueA).extractions =
      [extractInfo ExtensionType.Plugin (issueA.body.getD "")
        (issueA.login.getD "")] :=
  (extracted_record_type_author ctxA issueA ExtensionType.Plugin 42
    rfl rfl).1

/-- C8: a branch name that is the fixed marker followed by digits parses
to the value of the digits (null when that value is non-positive); a
branch name missing the marker (in particular the empty string) or whose
remainder after the marker is empty or not all digits parses to null. -/
theorem ref_marker_digits_parse :
    (∀ ds : List Char, ds ≠ [] → ds.all Char.isDigit = true →
      extractIssueNumberFromRef
          (String.mk ('i' :: 's' :: 's' :: 'u' :: 'e' :: '-' :: ds)) =
        if digitsVal ds = 0 then none else some (digitsVal ds)) ∧
    (∀ ref : String, stripMarker ref.data = none →
      extractIssueNumberFromRef ref = none) ∧
    (∀ ref : String, ∀ rest, stripMarker ref.data = some rest →
      (rest = [] ∨ rest.all Char.isDigit = false) →
      extractIssueNumberFromRef ref = none) ∧
    extractIssueNumberFromRef "" = none := by
  refine ⟨?_, ?_, ?_, rfl⟩
  · intro ds hne hdig
    have h : extractIssueNumberFromRef
        (String.mk ('i' :: 's' :: 's' :: 'u' :: 'e' :: '-' :: ds)) =
        if ds ≠ [] ∧ ds.all Char.isDigit then
          if digitsVal ds = 0 then none else some (digitsVal ds)
        else none := rfl
    rw [h, if_pos ⟨hne, hdig⟩]
  · intro ref h
    unfold extractIssueNumberFromRef
    rw [h]
  · intro ref rest h hbad
    have hneg : ¬(rest ≠ [] ∧ rest.all Char.isDigit = true) := by
      rintro ⟨hne, hall⟩
      rcases hbad with h1 | h1
      · exact hne h1
      · rw [hall] at h1
        cases h1
    simp only [extractIssueNumberFromRef, h, if_neg hneg]

/-- C8 witness: branch `issue-42` parses to issue 42. -/
theorem ref_marker_digits_parse_witness :
    extractIssueNumberFromRef "issue-42" = some 42 := by
  have h := ref_marker_digits_parse.1 ['4', '2'] (by decide) (by decide)
  exact h.trans (by decide)

/-- C9: the guard on the parsed issue number tests falsiness, so a parse
result of 0 takes exactly the same failure path as null — the
cannot-resolve failure with no fetch — and any fetch that does occur
carries a parse result that was a non-zero number. -/
theorem zero_issue_number_fails_like_null
    (t : ExtensionType) (issue : IssueData) :
    checkFromIssueNumber t (some 0) issue =
      checkFromIssueNumber t none issue ∧
    checkFromIssueNumber t (some 0) issue = cannotResolveRun ∧
    (∀ numOpt m,
      ApiCall.fetchIssue m ∈ (checkFromIssueNumber t numOpt issue).calls →
      numOpt = some m ∧ m ≠ 0) := by
  refine ⟨rfl, rfl, ?_⟩
  intro numOpt m hm
  match numOpt with
  | none => simp [checkFromIssueNumber, cannotResolveRun] at hm
  | some k =>
    by_cases hk : k = 0
    · subst hk
      simp [checkFromIssueNumber, cannotResolveRun] at hm
    · simp only [checkFromIssueNumber, hk, if_neg] at hm
      have hmk := runDispatch_fetch_mem _ _ _ hm
      subst hmk
      exact ⟨rfl, hk⟩

/-- C9 witness: a parse result of 0 and a parse result of null produce
the same run. -/
theorem zero_issue_number_fails_like_null_witness :
    checkFromIssueNumber ExtensionType.Bot (some 0) ⟨none, none⟩ =
      checkFromIssueNumber ExtensionType.Bot none ⟨none, none⟩ :=
  (zero_issue_number_fails_like_null ExtensionType.Bot ⟨none, none⟩).1

/-- C10: the dispatch switch keys on the built record's `type` field (it
is a function of the record alone): when that field is one of the three
case strings exactly one validator runs, and for any record whose `type`
is outside that set no validator runs, no write occurs, and the run
completes without a failure signal. -/
theorem dispatch_keys_on_record_type (info : Info) (n : Nat) :
    ((info.type = "Bot" ∨ info.type = "Adapter" ∨ info.type = "Plugin") →
      (runDispatch info n).invoked.length = 1) ∧
    (info.type ≠ "Bot" → info.type ≠ "Adapter" → info.type ≠ "Plugin" →
      (runDispatch info n).invoked = [] ∧
      (runDispatch info n).calls = [ApiCall.fetchIssue n] ∧
      (runDispatch info n).failedMsg = none) := by
  constructor
  · rintro (h | h | h) <;> simp [runDispatch, dispatch, h]
  · intro h1 h2 h3
    refine ⟨?_, ?_, ?_⟩ <;> simp [runDispatch, dispatch, h1, h2, h3]

/-- C10 witness: a record with an out-of-set `type` falls through the
switch: nothing is invoked, only the fetch occurred, no failure. -/
theorem dispatch_keys_on_record_type_witness :
    (runDispatch ⟨"Widget", "x", "y"⟩ 5).invoked = [] ∧
    (runDispatch ⟨"Widget", "x", "y"⟩ 5).calls = [ApiCall.fetchIssue 5] ∧
    (runDispatch ⟨"Widget", "x", "y"⟩ 5).failedMsg = none :=
  (dispatch_keys_on_record_type ⟨"Widget", "x", "y"⟩ 5).2
    (by decide) (by decide) (by decide)
